import Mathlib

open scoped List

/-!
Shallow embedding of `process_timeline` from `count_likes.py`: the bounded,
cursor-paginated fetch-and-rank pipeline.  Timestamps are modelled as integers
(seconds); the result of parsing an item's `created_at` string is an
`Option Int` (`none` models a `ValueError` in `datetime.fromisoformat`).
All calls to the external `atproto` client and to the wall clock are supplied
by an `Env` record; calls to `get_timeline` / `get_post_thread` / `time.time`
are indexed by a per-function call counter so that each call may behave
differently, and every network call made is recorded in a trace.  The
unbounded `while` loop is given a fuel parameter bounding its iterations.
-/

/-- One timeline item (`feed_view.post`): the parse result of
`post.record.created_at` (`none` = unparseable), `post.record.text`
(as a list of characters, mirroring a Python string), and `post.uri`. -/
structure Post where
  created_at : Option Int
  text : List Char
  uri : String
deriving Repr, DecidableEq

/-- A `get_timeline` response: `timeline.feed` and `timeline.cursor`
(`none` models Python `None`). -/
structure Page where
  feed : List Post
  cursor : Option String
deriving Repr, DecidableEq

/-- A record of one network call made through the client. -/
inductive NetCall where
  | login (handle password : String)
  | get_timeline (limit : Nat) (cursor : Option String)
  | get_post_thread (uri : String)
deriving Repr, DecidableEq

/-- The external world: the two environment variables, whether `client.login`
succeeds, the responses of `client.get_timeline` (by call index, limit,
cursor; `none` = the call raises) and of `client.get_post_thread` (by call
index and uri; outer `none` = the call raises, the inner options model
possibly-absent `like_count` / `repost_count` / `reply_count` attributes),
the value of `datetime.now(timezone.utc)` and the readings of `time.time()`
(by call index). -/
structure Env where
  handle : Option String
  password : Option String
  login_ok : Bool
  get_timeline : Nat → Nat → Option String → Option Page
  get_post_thread : Nat → String → Option (Option Nat × Option Nat × Option Nat)
  now : Int
  clock : Nat → Int

/-- Python truthiness of an optional string: `None` and `""` are falsy
(used by `if not handle or not password` and `if not cursor`). -/
def falsyStr : Option String → Bool
  | none => true
  | some s => s.isEmpty

/-- One entry of an accumulator: `[text, count, uri]` (lines 161-163). -/
structure Rec where
  text : List Char
  count : Nat
  uri : String
deriving Repr, DecidableEq

/-- Line 159-163's truncation:
`post_text[:50] + "..." if len(post_text) > 50 else post_text`. -/
def truncate_text (t : List Char) : List Char :=
  if 50 < t.length then t.take 50 ++ ['.', '.', '.'] else t

/-- The mutable state of the fetch loop: the three accumulators, the counter
`post_count`, the pagination `cursor`, the number of `time.time()` /
`get_timeline` / `get_post_thread` calls made so far, and the trace of
network calls. -/
structure LoopState where
  post_likes : List Rec
  post_reposts : List Rec
  post_replies : List Rec
  post_count : Nat
  cursor : Option String
  t_idx : Nat
  p_idx : Nat
  th_idx : Nat
  calls : List NetCall
deriving Repr, DecidableEq

/-- Lines 144-169: fetch the post's thread for its counts (zero-filling all
three on failure, and defaulting each absent count to 0), truncate the text,
append `[text, count, uri]` to each accumulator, increment `post_count`. -/
def accept_post (env : Env) (s : LoopState) (p : Post) : LoopState :=
  let res := env.get_post_thread s.th_idx p.uri
  let like_count := match res with | some (l, _, _) => l.getD 0 | none => 0
  let repost_count := match res with | some (_, r, _) => r.getD 0 | none => 0
  let reply_count := match res with | some (_, _, rp) => rp.getD 0 | none => 0
  let txt := truncate_text p.text
  { s with
    post_likes := s.post_likes ++ [⟨txt, like_count, p.uri⟩]
    post_reposts := s.post_reposts ++ [⟨txt, repost_count, p.uri⟩]
    post_replies := s.post_replies ++ [⟨txt, reply_count, p.uri⟩]
    post_count := s.post_count + 1
    th_idx := s.th_idx + 1
    calls := s.calls ++ [NetCall.get_post_thread p.uri] }

/-- Lines 107-173: the `for feed_view in timeline.feed` loop.  Before each
item, `time.time() >= deadline` breaks out; an unparseable `created_at`
skips the item (`continue`), as does `record_time < start_time - time_window`;
when both text and uri are truthy the item is accepted; finally
`post_count >= max_posts` breaks out. -/
def process_feed (env : Env) (deadline window_start : Int) (max_posts : Nat) :
    LoopState → List Post → LoopState
  | s, [] => s
  | s, p :: rest =>
    if deadline ≤ env.clock s.t_idx then
      { s with t_idx := s.t_idx + 1 }
    else
      let s1 : LoopState := { s with t_idx := s.t_idx + 1 }
      match p.created_at with
      | none => process_feed env deadline window_start max_posts s1 rest
      | some t =>
        if t < window_start then
          process_feed env deadline window_start max_posts s1 rest
        else
          let s2 : LoopState :=
            if p.text ≠ [] ∧ p.uri ≠ "" then accept_post env s1 p else s1
          if max_posts ≤ s2.post_count then s2
          else process_feed env deadline window_start max_posts s2 rest

/-- Lines 83-181: the paginated `while post_count < max_posts and
time.time() < deadline` loop.  Each iteration requests
`min(100, max_posts - post_count)` items at the current cursor; a raising
`get_timeline` returns with the second component `true` (the
`return [], [], []` path of lines 95-98); an empty feed breaks; otherwise
the feed is processed, the cursor advanced, and a falsy cursor breaks.
`fuel` bounds the number of iterations (the source loop has no a priori
bound). -/
def fetch_loop (env : Env) (deadline window_start : Int) (max_posts : Nat) :
    Nat → LoopState → LoopState × Bool
  | 0, s => (s, false)
  | fuel + 1, s =>
    if max_posts ≤ s.post_count then (s, false)
    else if deadline ≤ env.clock s.t_idx then ({ s with t_idx := s.t_idx + 1 }, false)
    else
      let s1 : LoopState := { s with t_idx := s.t_idx + 1 }
      let limit := min 100 (max_posts - s1.post_count)
      let s2 : LoopState := { s1 with
        p_idx := s1.p_idx + 1
        calls := s1.calls ++ [NetCall.get_timeline limit s1.cursor] }
      match env.get_timeline s1.p_idx limit s1.cursor with
      | none => (s2, true)
      | some page =>
        if page.feed = [] then (s2, false)
        else
          let s3 := process_feed env deadline window_start max_posts s2 page.feed
          let s4 : LoopState := { s3 with cursor := page.cursor }
          if falsyStr page.cursor then (s4, false)
          else fetch_loop env deadline window_start max_posts fuel s4

/-- The comparison used by `sorted(..., key=lambda x: x[1], reverse=True)`:
descending by the count field. -/
def desc_le (a b : Rec) : Prop := b.count ≤ a.count

instance : DecidableRel desc_le := fun a b => Nat.decLe b.count a.count

instance : IsTotal Rec desc_le := ⟨fun a b => Nat.le_total b.count a.count⟩

instance : IsTrans Rec desc_le := ⟨fun _ _ _ hab hbc => le_trans hbc hab⟩

/-- `sorted(l, key=lambda x: x[1], reverse=True)`: Python's sort is stable,
so equal counts keep their relative order; a stable sort by a total preorder
is unique, and `List.insertionSort` by `desc_le` is one. -/
def sort_desc (l : List Rec) : List Rec := l.insertionSort desc_le

/-- Lines 59-181 run from the initial state: before the loop, `time.time()`
is called once (call index 0) to form `deadline = time.time() +
timeout_seconds`; `start_time - time_window` is `now - 3600 *
time_window_hours`; the cursor starts as `None` and the trace already holds
the `login` call.  Returns the final loop state and whether a page fetch
raised. -/
def run_state (env : Env) (time_window_hours max_posts : Nat)
    (timeout_seconds : Int) (fuel : Nat) : LoopState × Bool :=
  fetch_loop env (env.clock 0 + timeout_seconds)
    (env.now - 3600 * (time_window_hours : Int)) max_posts fuel
    { post_likes := [], post_reposts := [], post_replies := [], post_count := 0,
      cursor := none, t_idx := 1, p_idx := 0, th_idx := 0,
      calls := [NetCall.login (env.handle.getD "") (env.password.getD "")] }

/-- The value returned by `process_timeline`, together with the trace of
network calls made. -/
structure Result where
  top_likes : List Rec
  top_reposts : List Rec
  top_replies : List Rec
  calls : List NetCall
deriving Repr, DecidableEq

/-- `process_timeline(time_window_hours, max_posts, top_n, timeout_seconds)`:
missing/empty credentials return empty lists with no network call (lines
43-45); a failed login returns empty lists after the login call (lines
52-57); a raising page fetch returns empty lists (lines 95-98); otherwise
each accumulator is stably sorted by count descending and cut to `top_n`
(lines 187-194). -/
def process_timeline (env : Env) (time_window_hours max_posts top_n : Nat)
    (timeout_seconds : Int) (fuel : Nat) : Result :=
  if falsyStr env.handle || falsyStr env.password then
    ⟨[], [], [], []⟩
  else if env.login_ok = false then
    ⟨[], [], [], [NetCall.login (env.handle.getD "") (env.password.getD "")]⟩
  else if (run_state env time_window_hours max_posts timeout_seconds fuel).2 then
    ⟨[], [], [], (run_state env time_window_hours max_posts timeout_seconds fuel).1.calls⟩
  else
    let s := (run_state env time_window_hours max_posts timeout_seconds fuel).1
    ⟨(sort_desc s.post_likes).take top_n,
     (sort_desc s.post_reposts).take top_n,
     (sort_desc s.post_replies).take top_n,
     s.calls⟩

/-- Recogniser for `get_timeline` entries of the call trace. -/
def is_timeline_call : NetCall → Bool
  | NetCall.get_timeline _ _ => true
  | _ => false

/-- Number of page requests (`get_timeline` calls) in a trace. -/
def timeline_calls (cs : List NetCall) : Nat :=
  (cs.filter is_timeline_call).length

/-- The text/uri projection of an accumulator, forgetting the counts. -/
def proj2 (l : List Rec) : List (List Char × String) :=
  l.map fun r => (r.text, r.uri)

/-- The cross-accumulator invariant: the three accumulators list the same
posts (same truncated text and uri at every index, in particular the same
length) and their common length is `post_count`. -/
def Aligned (s : LoopState) : Prop :=
  proj2 s.post_likes = proj2 s.post_reposts ∧
  proj2 s.post_reposts = proj2 s.post_replies ∧
  s.post_likes.length = s.post_count ∧
  s.post_reposts.length = s.post_count ∧
  s.post_replies.length = s.post_count

/-! Concrete environments used to witness or refute individual claims. -/

/-- A timeline item dated strictly later than `Env.now` of `envC1`. -/
def post_future : Post := ⟨some 4000, ['h', 'i'], "u1"⟩

/-- Environment serving a single future-dated post on the first page. -/
def envC1 : Env :=
  { handle := some "h", password := some "p", login_ok := true,
    get_timeline := fun i _ _ =>
      if i = 0 then some ⟨[post_future], none⟩ else none,
    get_post_thread := fun _ _ => some (some 7, some 2, some 1),
    now := 0, clock := fun _ => 0 }

/-- A loop state as it stands at the start of the first page. -/
def stW1 : LoopState :=
  { post_likes := [], post_reposts := [], post_replies := [], post_count := 0,
    cursor := none, t_idx := 1, p_idx := 0, th_idx := 0, calls := [] }

/-- Environment whose first page succeeds (one accepted post, cursor
present) and whose second page request raises. -/
def envC3 : Env :=
  { handle := some "h", password := some "p", login_ok := true,
    get_timeline := fun i _ _ =>
      if i = 0 then some ⟨[⟨some 0, ['a'], "u1"⟩], some "c"⟩ else none,
    get_post_thread := fun _ _ => some (some 3, some 3, some 3),
    now := 0, clock := fun _ => 0 }

/-- Environment with the handle environment variable missing. -/
def envC4 : Env :=
  { handle := none, password := some "p", login_ok := true,
    get_timeline := fun _ _ _ => none, get_post_thread := fun _ _ => none,
    now := 0, clock := fun _ => 0 }

/-- Environment whose engagement lookups all raise (used at states where a
page is already being processed, so its page responses are irrelevant). -/
def envStub : Env :=
  { handle := some "h", password := some "p", login_ok := true,
    get_timeline := fun _ _ _ => none, get_post_thread := fun _ _ => none,
    now := 0, clock := fun _ => 0 }

/-- A post accepted by every filter, served 150 times by `env150`. -/
def post150 : Post := ⟨some 0, ['t'], "u"⟩

/-- Environment with 150 identical eligible posts: the first page request
serves 100 of them (with a continuation cursor), any further request the
remaining 50. -/
def env150 : Env :=
  { handle := some "h", password := some "p", login_ok := true,
    get_timeline := fun i _ _ =>
      if i = 0 then some ⟨List.replicate 100 post150, some "c"⟩
      else some ⟨List.replicate 50 post150, none⟩,
    get_post_thread := fun _ _ => some (some 1, some 1, some 1),
    now := 0, clock := fun _ => 0 }

/-- Environment serving two eligible posts with distinct engagement counts. -/
def envC10 : Env :=
  { handle := some "h", password := some "p", login_ok := true,
    get_timeline := fun i _ _ =>
      if i = 0 then some ⟨[⟨some 0, ['a'], "u1"⟩, ⟨some 0, ['b'], "u2"⟩], none⟩
      else none,
    get_post_thread := fun i _ =>
      if i = 0 then some (some 5, some 4, some 3) else some (some 9, some 1, some 2),
    now := 0, clock := fun _ => 0 }

/-! Helper lemmas about the sort and the loop invariants. -/

/-- `sort_desc` output is pairwise descending by count. -/
theorem sort_desc_sorted (l : List Rec) : (sort_desc l).Pairwise desc_le :=
  List.sorted_insertionSort desc_le l

/-- `sort_desc` is stable: for each count value, the records carrying that
count appear in the sorted output in exactly their original order. -/
theorem sort_desc_filter_count (l : List Rec) (c : Nat) :
    (sort_desc l).filter (fun r => r.count == c) =
      l.filter (fun r => r.count == c) := by
  have hsub : l.filter (fun r => r.count == c) <+ sort_desc l := by
    apply List.sublist_insertionSort
    · apply List.pairwise_of_forall_mem_list
      intro a ha b hb
      have ha' : a.count = c := by
        have := (List.mem_filter.mp ha).2
        exact eq_of_beq this
      have hb' : b.count = c := by
        have := (List.mem_filter.mp hb).2
        exact eq_of_beq this
      unfold desc_le
      omega
    · exact List.filter_sublist l
  have hperm : (sort_desc l).filter (fun r => r.count == c) ~
      l.filter (fun r => r.count == c) :=
    (List.perm_insertionSort desc_le l).filter _
  have hsub2 : l.filter (fun r => r.count == c) <+
      (sort_desc l).filter (fun r => r.count == c) := by
    have h2 := hsub.filter (fun r => r.count == c)
    simpa [List.filter_filter, Bool.and_self] using h2
  exact (hsub2.eq_of_length hperm.length_eq.symm).symm

/-- Any prefix of the sorted accumulator is pairwise descending. -/
theorem take_sort_desc_pairwise (l : List Rec) (n : Nat) :
    ((sort_desc l).take n).Pairwise desc_le :=
  List.Pairwise.sublist (List.take_sublist n (sort_desc l)) (sort_desc_sorted l)

/-- Equal-count records of a prefix of the sorted accumulator occur as a
sublist (hence in the same relative order) of the accumulator itself. -/
theorem take_sort_desc_filter_sublist (l : List Rec) (n c : Nat) :
    ((sort_desc l).take n).filter (fun r => r.count == c) <+
      l.filter (fun r => r.count == c) := by
  have h := (List.take_sublist n (sort_desc l)).filter (fun r => r.count == c)
  rwa [sort_desc_filter_count] at h

/-- Accepting a post increments `post_count` by one. -/
theorem accept_post_post_count (env : Env) (s : LoopState) (p : Post) :
    (accept_post env s p).post_count = s.post_count + 1 := rfl

/-- The item loop keeps `post_count` at or below `max_posts` whenever it is
entered below `max_posts`. -/
theorem process_feed_post_count_le (env : Env) (deadline window_start : Int)
    (max_posts : Nat) (l : List Post) :
    ∀ s : LoopState, s.post_count < max_posts →
      (process_feed env deadline window_start max_posts s l).post_count ≤ max_posts := by
  induction l with
  | nil =>
    intro s h
    exact Nat.le_of_lt h
  | cons p rest ih =>
    intro s h
    simp only [process_feed]
    by_cases h0 : deadline ≤ env.clock s.t_idx
    · rw [if_pos h0]
      exact Nat.le_of_lt h
    · rw [if_neg h0]
      split
      · exact ih _ h
      · rename_i t heq
        by_cases hw : t < window_start
        · rw [if_pos hw]
          exact ih _ h
        · rw [if_neg hw]
          by_cases hv : p.text ≠ [] ∧ p.uri ≠ ""
          · rw [if_pos hv]
            by_cases hb : max_posts ≤
                (accept_post env { s with t_idx := s.t_idx + 1 } p).post_count
            · rw [if_pos hb]
              show s.post_count + 1 ≤ max_posts
              omega
            · rw [if_neg hb]
              refine ih _ ?_
              exact not_le.mp hb
          · rw [if_neg hv]
            by_cases hb : max_posts ≤ ({ s with t_idx := s.t_idx + 1 } : LoopState).post_count
            · rw [if_pos hb]
              exact Nat.le_of_lt h
            · rw [if_neg hb]
              exact ih _ h

/-- The page loop keeps `post_count` at or below `max_posts`. -/
theorem fetch_loop_post_count_le (env : Env) (deadline window_start : Int)
    (max_posts : Nat) (fuel : Nat) :
    ∀ s : LoopState, s.post_count ≤ max_posts →
      ((fetch_loop env deadline window_start max_posts fuel s).1).post_count ≤ max_posts := by
  induction fuel with
  | zero =>
    intro s h
    exact h
  | succ fuel ih =>
    intro s h
    simp only [fetch_loop]
    by_cases h1 : max_posts ≤ s.post_count
    · rw [if_pos h1]
      exact h
    · rw [if_neg h1]
      by_cases h2 : deadline ≤ env.clock s.t_idx
      · rw [if_pos h2]
        exact h
      · rw [if_neg h2]
        split
        · exact h
        · next page heq =>
          by_cases h3 : page.feed = []
          · rw [if_pos h3]
            exact h
          · rw [if_neg h3]
            by_cases h4 : falsyStr page.cursor = true
            · rw [if_pos h4]
              exact process_feed_post_count_le env deadline window_start max_posts _ _
                (not_le.mp h1)
            · rw [if_neg h4]
              exact ih _
                (process_feed_post_count_le env deadline window_start max_posts _ _
                  (not_le.mp h1))

/-- Accepting a post preserves the cross-accumulator invariant: the same
text/uri pair is appended to all three accumulators. -/
theorem accept_post_aligned (env : Env) (s : LoopState) (p : Post)
    (h : Aligned s) : Aligned (accept_post env s p) := by
  obtain ⟨h1, h2, h3, h4, h5⟩ := h
  unfold Aligned accept_post proj2 at *
  simp only [List.map_append, List.map_cons, List.map_nil, List.length_append,
    List.length_cons, List.length_nil]
  refine ⟨?_, ?_, ?_, ?_, ?_⟩
  · rw [h1]
  · rw [h2]
  · omega
  · omega
  · omega

/-- The item loop preserves the cross-accumulator invariant. -/
theorem process_feed_aligned (env : Env) (deadline window_start : Int)
    (max_posts : Nat) (l : List Post) :
    ∀ s : LoopState, Aligned s →
      Aligned (process_feed env deadline window_start max_posts s l) := by
  induction l with
  | nil =>
    intro s h
    exact h
  | cons p rest ih =>
    intro s h
    simp only [process_feed]
    by_cases h0 : deadline ≤ env.clock s.t_idx
    · rw [if_pos h0]
      exact h
    · rw [if_neg h0]
      split
      · exact ih _ h
      · rename_i t heq
        by_cases hw : t < window_start
        · rw [if_pos hw]
          exact ih _ h
        · rw [if_neg hw]
          by_cases hv : p.text ≠ [] ∧ p.uri ≠ ""
          · rw [if_pos hv]
            by_cases hb : max_posts ≤
                (accept_post env { s with t_idx := s.t_idx + 1 } p).post_count
            · rw [if_pos hb]
              exact accept_post_aligned env _ p h
            · rw [if_neg hb]
              exact ih _ (accept_post_aligned env _ p h)
          · rw [if_neg hv]
            by_cases hb : max_posts ≤ ({ s with t_idx := s.t_idx + 1 } : LoopState).post_count
            · rw [if_pos hb]
              exact h
            · rw [if_neg hb]
              exact ih _ h

/-- The page loop preserves the cross-accumulator invariant. -/
theorem fetch_loop_aligned (env : Env) (deadline window_start : Int)
    (max_posts : Nat) (fuel : Nat) :
    ∀ s : LoopState, Aligned s →
      Aligned ((fetch_loop env deadline window_start max_posts fuel s).1) := by
  induction fuel with
  | zero =>
    intro s h
    exact h
  | succ fuel ih =>
    intro s h
    simp only [fetch_loop]
    by_cases h1 : max_posts ≤ s.post_count
    · rw [if_pos h1]
      exact h
    · rw [if_neg h1]
      by_cases h2 : deadline ≤ env.clock s.t_idx
      · rw [if_pos h2]
        exact h
      · rw [if_neg h2]
        split
        · exact h
        · next page heq =>
          by_cases h3 : page.feed = []
          · rw [if_pos h3]
            exact h
          · rw [if_neg h3]
            by_cases h4 : falsyStr page.cursor = true
            · rw [if_pos h4]
              exact process_feed_aligned env deadline window_start max_posts _ _ h
            · rw [if_neg h4]
              exact ih _ (process_feed_aligned env deadline window_start max_posts _ _ h)

/-- The final state of every run satisfies the cross-accumulator invariant. -/
theorem run_state_aligned (env : Env) (twh mp : Nat) (ts : Int) (fuel : Nat) :
    Aligned (run_state env twh mp ts fuel).1 := by
  unfold run_state
  exact fetch_loop_aligned env _ _ mp fuel _ ⟨rfl, rfl, rfl, rfl, rfl⟩

/-- The final `post_count` of every run is at most `max_posts`. -/
theorem run_state_post_count_le (env : Env) (twh mp : Nat) (ts : Int) (fuel : Nat) :
    (run_state env twh mp ts fuel).1.post_count ≤ mp := by
  unfold run_state
  exact fetch_loop_post_count_le env _ _ mp fuel _ (Nat.zero_le mp)

/-- `process_timeline` either returns three empty lists (missing credentials,
failed login, or a raising page fetch) or the `top_n`-prefixes of the three
stably sorted accumulators of the run. -/
theorem process_timeline_cases (env : Env) (twh mp tn : Nat) (ts : Int) (fuel : Nat) :
    ((process_timeline env twh mp tn ts fuel).top_likes = [] ∧
     (process_timeline env twh mp tn ts fuel).top_reposts = [] ∧
     (process_timeline env twh mp tn ts fuel).top_replies = []) ∨
    ((process_timeline env twh mp tn ts fuel).top_likes =
        (sort_desc (run_state env twh mp ts fuel).1.post_likes).take tn ∧
     (process_timeline env twh mp tn ts fuel).top_reposts =
        (sort_desc (run_state env twh mp ts fuel).1.post_reposts).take tn ∧
     (process_timeline env twh mp tn ts fuel).top_replies =
        (sort_desc (run_state env twh mp ts fuel).1.post_replies).take tn) := by
  unfold process_timeline
  by_cases h1 : (falsyStr env.handle || falsyStr env.password) = true
  · rw [if_pos h1]
    exact Or.inl ⟨rfl, rfl, rfl⟩
  · rw [if_neg h1]
    by_cases h2 : env.login_ok = false
    · rw [if_pos h2]
      exact Or.inl ⟨rfl, rfl, rfl⟩
    · rw [if_neg h2]
      by_cases h3 : (run_state env twh mp ts fuel).2 = true
      · rw [if_pos h3]
        exact Or.inl ⟨rfl, rfl, rfl⟩
      · rw [if_neg h3]
        exact Or.inr ⟨rfl, rfl, rfl⟩

/-! The claims. -/

/-- C1 counterexample: the code checks only the lower bound of the time
window (`record_time < start_time - time_window`), so a post whose parsed
`created_at` is strictly later than `now` — outside `[now - window, now]` —
is nevertheless included in every metric's output. -/
theorem C1_counterexample :
    post_future.created_at = some 4000 ∧ envC1.now < 4000 ∧
    (process_timeline envC1 72 100 5 300 5).top_likes = [⟨['h', 'i'], 7, "u1"⟩] ∧
    (process_timeline envC1 72 100 5 300 5).top_reposts = [⟨['h', 'i'], 2, "u1"⟩] ∧
    (process_timeline envC1 72 100 5 300 5).top_replies = [⟨['h', 'i'], 1, "u1"⟩] := by
  decide

/-- C1 (amended): a post whose parsed `created_at` is strictly before
`now - time_window` is skipped by the item loop — it reaches no accumulator
and hence no output; the upper bound `now` is not enforced.  (Stated at the
point the window filter runs: the deadline has not fired at this item.) -/
theorem C1_amended_window_filter (env : Env) (deadline window_start : Int)
    (max_posts : Nat) (s : LoopState) (p : Post) (rest : List Post) (t : Int)
    (hparse : p.created_at = some t) (hold : t < window_start)
    (htime : env.clock s.t_idx < deadline) :
    process_feed env deadline window_start max_posts s (p :: rest) =
      process_feed env deadline window_start max_posts
        { s with t_idx := s.t_idx + 1 } rest := by
  simp only [process_feed]
  rw [if_neg (not_le.mpr htime)]
  simp only [hparse]
  rw [if_pos hold]

theorem C1_amended_window_filter_witness :
    ((⟨some (-300000), ['a'], "u"⟩ : Post).created_at = some (-300000) ∧
      (-300000 : Int) < -259200 ∧ envC1.clock stW1.t_idx < 300) ∧
    process_feed envC1 300 (-259200) 100 stW1 [⟨some (-300000), ['a'], "u"⟩] =
      process_feed envC1 300 (-259200) 100 { stW1 with t_idx := stW1.t_idx + 1 } [] :=
  ⟨⟨rfl, by decide, by decide⟩,
   C1_amended_window_filter envC1 300 (-259200) 100 stW1 _ [] (-300000) rfl
     (by decide) (by decide)⟩

/-- C2: each returned sequence is pairwise descending by its metric count,
equals the first `top_n` elements of the stably sorted accumulator (or is
empty on a failure path), and its equal-count records form a sublist of the
accumulator's equal-count records — that is, ties keep the order in which
the posts were accepted from the timeline. -/
theorem C2_sorted_stable (env : Env) (twh mp tn : Nat) (ts : Int) (fuel : Nat)
    (c : Nat) :
    ((process_timeline env twh mp tn ts fuel).top_likes.Pairwise desc_le ∧
     (process_timeline env twh mp tn ts fuel).top_reposts.Pairwise desc_le ∧
     (process_timeline env twh mp tn ts fuel).top_replies.Pairwise desc_le) ∧
    (((process_timeline env twh mp tn ts fuel).top_likes =
        (sort_desc (run_state env twh mp ts fuel).1.post_likes).take tn ∨
      (process_timeline env twh mp tn ts fuel).top_likes = []) ∧
     ((process_timeline env twh mp tn ts fuel).top_reposts =
        (sort_desc (run_state env twh mp ts fuel).1.post_reposts).take tn ∨
      (process_timeline env twh mp tn ts fuel).top_reposts = []) ∧
     ((process_timeline env twh mp tn ts fuel).top_replies =
        (sort_desc (run_state env twh mp ts fuel).1.post_replies).take tn ∨
      (process_timeline env twh mp tn ts fuel).top_replies = [])) ∧
    ((process_timeline env twh mp tn ts fuel).top_likes.filter
        (fun r => r.count == c) <+
      (run_state env twh mp ts fuel).1.post_likes.filter (fun r => r.count == c) ∧
     (process_timeline env twh mp tn ts fuel).top_reposts.filter
        (fun r => r.count == c) <+
      (run_state env twh mp ts fuel).1.post_reposts.filter (fun r => r.count == c) ∧
     (process_timeline env twh mp tn ts fuel).top_replies.filter
        (fun r => r.count == c) <+
      (run_state env twh mp ts fuel).1.post_replies.filter (fun r => r.count == c)) := by
  rcases process_timeline_cases env twh mp tn ts fuel with ⟨e1, e2, e3⟩ | ⟨e1, e2, e3⟩
  · rw [e1, e2, e3]
    exact ⟨⟨List.Pairwise.nil, List.Pairwise.nil, List.Pairwise.nil⟩,
      ⟨Or.inr rfl, Or.inr rfl, Or.inr rfl⟩,
      List.nil_sublist _, List.nil_sublist _, List.nil_sublist _⟩
  · rw [e1, e2, e3]
    exact ⟨⟨take_sort_desc_pairwise _ _, take_sort_desc_pairwise _ _,
        take_sort_desc_pairwise _ _⟩,
      ⟨Or.inl rfl, Or.inl rfl, Or.inl rfl⟩,
      take_sort_desc_filter_sublist _ _ _, take_sort_desc_filter_sublist _ _ _,
      take_sort_desc_filter_sublist _ _ _⟩

/-- C3: whenever a page request raises (the second component of `run_state`
is `true`), `process_timeline` returns an empty sequence for every metric;
results accumulated from earlier pages are discarded. -/
theorem C3_fetch_failure_empty (env : Env) (twh mp tn : Nat) (ts : Int)
    (fuel : Nat) (h : (run_state env twh mp ts fuel).2 = true) :
    (process_timeline env twh mp tn ts fuel).top_likes = [] ∧
    (process_timeline env twh mp tn ts fuel).top_reposts = [] ∧
    (process_timeline env twh mp tn ts fuel).top_replies = [] := by
  unfold process_timeline
  by_cases h1 : (falsyStr env.handle || falsyStr env.password) = true
  · rw [if_pos h1]
    exact ⟨rfl, rfl, rfl⟩
  · rw [if_neg h1]
    by_cases h2 : env.login_ok = false
    · rw [if_pos h2]
      exact ⟨rfl, rfl, rfl⟩
    · rw [if_neg h2, if_pos h]
      exact ⟨rfl, rfl, rfl⟩

theorem C3_fetch_failure_empty_witness :
    (run_state envC3 72 100 300 5).2 = true ∧
    (run_state envC3 72 100 300 5).1.post_likes ≠ [] ∧
    ((process_timeline envC3 72 100 5 300 5).top_likes = [] ∧
     (process_timeline envC3 72 100 5 300 5).top_reposts = [] ∧
     (process_timeline envC3 72 100 5 300 5).top_replies = []) :=
  ⟨by decide, by decide, C3_fetch_failure_empty envC3 72 100 5 300 5 (by decide)⟩

/-- C4: when the handle or the password environment variable is missing or
empty, `process_timeline` returns empty results for every metric and its
call trace is empty — no login, no page request, no engagement lookup. -/
theorem C4_missing_credentials_no_network (env : Env) (twh mp tn : Nat)
    (ts : Int) (fuel : Nat)
    (h : falsyStr env.handle = true ∨ falsyStr env.password = true) :
    process_timeline env twh mp tn ts fuel = ⟨[], [], [], []⟩ := by
  unfold process_timeline
  rcases h with h | h <;> simp [h]

theorem C4_missing_credentials_no_network_witness :
    (falsyStr envC4.handle = true ∨ falsyStr envC4.password = true) ∧
    process_timeline envC4 72 100 5 300 5 = ⟨[], [], [], []⟩ :=
  ⟨Or.inl (by decide),
   C4_missing_credentials_no_network envC4 72 100 5 300 5 (Or.inl (by decide))⟩

/-- C5: an accepted post's stored text is unchanged when the original has at
most 50 characters (in particular at exactly 50); when the original exceeds
50 characters it is the first 50 characters followed by a 3-character
ellipsis, total length 53. -/
theorem C5_truncation (t : List Char) :
    (t.length ≤ 50 → truncate_text t = t) ∧
    (50 < t.length →
      truncate_text t = t.take 50 ++ ['.', '.', '.'] ∧
      (truncate_text t).length = 53) := by
  constructor
  · intro h
    unfold truncate_text
    rw [if_neg (by omega)]
  · intro h
    unfold truncate_text
    rw [if_pos h]
    refine ⟨rfl, ?_⟩
    simp only [List.length_append, List.length_take, List.length_cons,
      List.length_nil]
    omega

theorem C5_truncation_witness :
    ((List.replicate 50 'a').length ≤ 50 ∧
      truncate_text (List.replicate 50 'a') = List.replicate 50 'a') ∧
    (50 < (List.replicate 51 'a').length ∧
      truncate_text (List.replicate 51 'a') =
        (List.replicate 51 'a').take 50 ++ ['.', '.', '.'] ∧
      (truncate_text (List.replicate 51 'a')).length = 53) :=
  ⟨⟨by decide, (C5_truncation (List.replicate 50 'a')).1 (by decide)⟩,
   ⟨by decide, (C5_truncation (List.replicate 51 'a')).2 (by decide)⟩⟩

/-- C6: an item that passes the timestamp and text/uri checks but whose
`get_post_thread` call raises is not aborted on: it is appended to all three
accumulators with every count zero, the previously accumulated records are
left as they were, and the loop continues with the remaining items. -/
theorem C6_lookup_failure_zero_fill (env : Env) (deadline window_start : Int)
    (max_posts : Nat) (s : LoopState) (p : Post) (rest : List Post) (t : Int)
    (htime : env.clock s.t_idx < deadline)
    (hparse : p.created_at = some t) (hwin : ¬ t < window_start)
    (htext : p.text ≠ []) (huri : p.uri ≠ "")
    (hfail : env.get_post_thread s.th_idx p.uri = none) :
    process_feed env deadline window_start max_posts s (p :: rest) =
      (let s' : LoopState := { s with
          post_likes := s.post_likes ++ [⟨truncate_text p.text, 0, p.uri⟩]
          post_reposts := s.post_reposts ++ [⟨truncate_text p.text, 0, p.uri⟩]
          post_replies := s.post_replies ++ [⟨truncate_text p.text, 0, p.uri⟩]
          post_count := s.post_count + 1
          t_idx := s.t_idx + 1
          th_idx := s.th_idx + 1
          calls := s.calls ++ [NetCall.get_post_thread p.uri] }
        if max_posts ≤ s'.post_count then s'
        else process_feed env deadline window_start max_posts s' rest) := by
  simp only [process_feed]
  rw [if_neg (not_le.mpr htime)]
  simp only [hparse]
  rw [if_neg hwin, if_pos (show p.text ≠ [] ∧ p.uri ≠ "" from ⟨htext, huri⟩)]
  simp only [accept_post, hfail]

theorem C6_lookup_failure_zero_fill_witness :
    (envStub.clock stW1.t_idx < (300 : Int) ∧ ¬ (0 : Int) < -259200 ∧
      (['a'] : List Char) ≠ [] ∧ ("u1" : String) ≠ "" ∧
      envStub.get_post_thread stW1.th_idx "u1" = none) ∧
    process_feed envStub 300 (-259200) 100 stW1 [⟨some 0, ['a'], "u1"⟩] =
      (let s' : LoopState := { stW1 with
          post_likes := stW1.post_likes ++ [⟨truncate_text ['a'], 0, "u1"⟩]
          post_reposts := stW1.post_reposts ++ [⟨truncate_text ['a'], 0, "u1"⟩]
          post_replies := stW1.post_replies ++ [⟨truncate_text ['a'], 0, "u1"⟩]
          post_count := stW1.post_count + 1
          t_idx := stW1.t_idx + 1
          th_idx := stW1.th_idx + 1
          calls := stW1.calls ++ [NetCall.get_post_thread "u1"] }
        if 100 ≤ s'.post_count then s'
        else process_feed envStub 300 (-259200) 100 s' []) :=
  ⟨⟨by decide, by decide, by decide, by decide, rfl⟩,
   C6_lookup_failure_zero_fill envStub 300 (-259200) 100 stW1 _ [] 0
     (by decide) rfl (by decide) (by decide) (by decide) rfl⟩

/-- C7: every returned sequence has at most `top_n` elements, and the run's
accumulators never exceed `max_posts` records (they only ever grow, so the
final bound `post_count ≤ max_posts` together with the length invariant
bounds every intermediate point of the run). -/
theorem C7_bounds (env : Env) (twh mp tn : Nat) (ts : Int) (fuel : Nat) :
    (process_timeline env twh mp tn ts fuel).top_likes.length ≤ tn ∧
    (process_timeline env twh mp tn ts fuel).top_reposts.length ≤ tn ∧
    (process_timeline env twh mp tn ts fuel).top_replies.length ≤ tn ∧
    (run_state env twh mp ts fuel).1.post_count ≤ mp ∧
    (run_state env twh mp ts fuel).1.post_likes.length ≤ mp ∧
    (run_state env twh mp ts fuel).1.post_reposts.length ≤ mp ∧
    (run_state env twh mp ts fuel).1.post_replies.length ≤ mp := by
  have hcount := run_state_post_count_le env twh mp ts fuel
  obtain ⟨-, -, L1, L2, L3⟩ := run_state_aligned env twh mp ts fuel
  have htop : ∀ l : List Rec, ((sort_desc l).take tn).length ≤ tn := by
    intro l
    rw [List.length_take]
    exact min_le_left _ _
  refine ⟨?_, ?_, ?_, hcount, ?_, ?_, ?_⟩
  · rcases process_timeline_cases env twh mp tn ts fuel with ⟨e1, -, -⟩ | ⟨e1, -, -⟩ <;>
      rw [e1]
    · exact Nat.zero_le tn
    · exact htop _
  · rcases process_timeline_cases env twh mp tn ts fuel with ⟨-, e2, -⟩ | ⟨-, e2, -⟩ <;>
      rw [e2]
    · exact Nat.zero_le tn
    · exact htop _
  · rcases process_timeline_cases env twh mp tn ts fuel with ⟨-, -, e3⟩ | ⟨-, -, e3⟩ <;>
      rw [e3]
    · exact Nat.zero_le tn
    · exact htop _
  · rw [L1]
    exact hcount
  · rw [L2]
    exact hcount
  · rw [L3]
    exact hcount

set_option maxRecDepth 100000 in
/-- C8 counterexample: with 150 eligible posts available, `max_posts = 100`
and the page-size cap of 100, the run does NOT make two page requests: the
first request already yields 100 accepted posts, `post_count >= max_posts`
breaks the item loop and the while-condition stops the run before any
second request. -/
theorem C8_counterexample :
    ¬ timeline_calls (process_timeline env150 72 100 5 300 5).calls = 2 := by
  decide

set_option maxRecDepth 100000 in
/-- C8 (amended): in that scenario exactly ONE page request is made, and the
run ends with 100 accepted posts. -/
theorem C8_amended_one_page_request :
    timeline_calls (process_timeline env150 72 100 5 300 5).calls = 1 ∧
    (run_state env150 72 100 300 5).1.post_count = 100 := by
  decide

/-- C9: reaching the wall-clock deadline is graceful.  Mid-page, the item
loop halts leaving every accumulator (the records accepted so far) exactly
as it was; at the loop head, the while-condition ends the run with the
failure flag `false` (not the fetch-error path), so the accepted records
are the candidates handed to ranking. -/
theorem C9_timeout_graceful (env : Env) (deadline window_start : Int)
    (max_posts fuel : Nat) (s : LoopState) (p : Post) (rest : List Post)
    (h : deadline ≤ env.clock s.t_idx) (hcount : s.post_count < max_posts) :
    process_feed env deadline window_start max_posts s (p :: rest) =
      { s with t_idx := s.t_idx + 1 } ∧
    fetch_loop env deadline window_start max_posts (fuel + 1) s =
      ({ s with t_idx := s.t_idx + 1 }, false) := by
  constructor
  · simp only [process_feed]
    rw [if_pos h]
  · simp only [fetch_loop]
    rw [if_neg (not_le.mpr hcount), if_pos h]

theorem C9_timeout_graceful_witness :
    ((0 : Int) ≤ envStub.clock stW1.t_idx ∧ stW1.post_count < 100) ∧
    (process_feed envStub 0 (-259200) 100 stW1 [⟨some 0, ['a'], "u1"⟩] =
        { stW1 with t_idx := stW1.t_idx + 1 } ∧
      fetch_loop envStub 0 (-259200) 100 (3 + 1) stW1 =
        ({ stW1 with t_idx := stW1.t_idx + 1 }, false)) :=
  ⟨⟨by decide, by decide⟩,
   C9_timeout_graceful envStub 0 (-259200) 100 3 stW1 _ [] (by decide) (by decide)⟩

/-- C10: throughout and at the end of every run, the three accumulators hold
the same posts — equal lengths and the same truncated text and uri at every
index (the `Aligned` invariant) — and each returned ranking draws its
records from its accumulator, so the three rankings are drawn from the same
set of accepted posts, differing only in which count is ranked. -/
theorem C10_accumulators_aligned (env : Env) (twh mp tn : Nat) (ts : Int)
    (fuel : Nat) :
    Aligned (run_state env twh mp ts fuel).1 ∧
    (∀ r, r ∈ (process_timeline env twh mp tn ts fuel).top_likes →
      r ∈ (run_state env twh mp ts fuel).1.post_likes) ∧
    (∀ r, r ∈ (process_timeline env twh mp tn ts fuel).top_reposts →
      r ∈ (run_state env twh mp ts fuel).1.post_reposts) ∧
    (∀ r, r ∈ (process_timeline env twh mp tn ts fuel).top_replies →
      r ∈ (run_state env twh mp ts fuel).1.post_replies) := by
  refine ⟨run_state_aligned env twh mp ts fuel, ?_, ?_, ?_⟩
  · intro r hr
    rcases process_timeline_cases env twh mp tn ts fuel with ⟨e1, -, -⟩ | ⟨e1, -, -⟩
    · rw [e1] at hr
      exact absurd hr (List.not_mem_nil r)
    · rw [e1] at hr
      have := List.mem_of_mem_take hr
      unfold sort_desc at this
      exact (List.mem_insertionSort desc_le).mp this
  · intro r hr
    rcases process_timeline_cases env twh mp tn ts fuel with ⟨-, e2, -⟩ | ⟨-, e2, -⟩
    · rw [e2] at hr
      exact absurd hr (List.not_mem_nil r)
    · rw [e2] at hr
      have := List.mem_of_mem_take hr
      unfold sort_desc at this
      exact (List.mem_insertionSort desc_le).mp this
  · intro r hr
    rcases process_timeline_cases env twh mp tn ts fuel with ⟨-, -, e3⟩ | ⟨-, -, e3⟩
    · rw [e3] at hr
      exact absurd hr (List.not_mem_nil r)
    · rw [e3] at hr
      have := List.mem_of_mem_take hr
      unfold sort_desc at this
      exact (List.mem_insertionSort desc_le).mp this

theorem C10_accumulators_aligned_witness :
    ((⟨['b'], 9, "u2"⟩ : Rec) ∈ (process_timeline envC10 72 100 5 300 5).top_likes) ∧
    (Aligned (run_state envC10 72 100 300 5).1 ∧
      (⟨['b'], 9, "u2"⟩ : Rec) ∈ (run_state envC10 72 100 300 5).1.post_likes) :=
  ⟨by decide, (C10_accumulators_aligned envC10 72 100 5 300 5).1,
   (C10_accumulators_aligned envC10 72 100 5 300 5).2.1 ⟨['b'], 9, "u2"⟩ (by decide)⟩
